import Mathlib

/-!
Verification of the opencode-plugin-sema adapter (src/plugin.ts).

The plugin has three behaviors, each embedded below directly from the source:
  * `getPortForDir` — FNV-1a based deterministic port derivation (plugin.ts 13–21);
  * `checkServerHealth` / the activation supervisor loop (plugin.ts 26–36, 57–76),
    modelled as an event trace parametrised by oracles for the network and the
    PATH lookup;
  * the four tool `execute` callbacks (plugin.ts 92–111, 122–137, 145–157,
    171–190), split into pure argument-shaping functions, a spawn-request
    model, and the result-string contract.
-/

namespace Sema

/-! ## Port deriver (plugin.ts lines 13–21, `getPortForDir`) -/

def fnvOffsetBasis : Nat := 0xcbf29ce484222325

def fnvPrime : Nat := 0x100000001b3

def u64Mod : Nat := 2 ^ 64

/-- One step of the loop body: `h ^= BigInt(byte); h = (h * prime) & mask`.
The xor is not masked in the source; it needs no mask because both operands
stay below `2^64`. -/
def fnvStep (h b : Nat) : Nat := ((h ^^^ b) * fnvPrime) % u64Mod

/-- The hash loop of `getPortForDir`: fold `fnvStep` over the bytes starting
from the offset basis. -/
def fnv1a (bytes : List Nat) : Nat := bytes.foldl fnvStep fnvOffsetBasis

/-- `Buffer.from(cwd)` encodes the path as UTF-8 bytes. -/
def pathBytes (s : String) : List Nat := s.toUTF8.toList.map UInt8.toNat

/-- plugin.ts `getPortForDir`: `8765 + Number(h % 1000n)`. -/
def getPortForDir (cwd : String) : Nat := 8765 + fnv1a (pathBytes cwd) % 1000

/-- The hash as the spec words it: "xor the byte into the hash then multiply
by the prime, masked to 64 bits after each multiplication", written as direct
recursion over the byte list for comparison with the source's fold. -/
def fnv1aSpecWords : Nat → List Nat → Nat
  | h, [] => h
  | h, b :: bs => fnv1aSpecWords (((h ^^^ b) * fnvPrime) % u64Mod) bs

theorem fnv1aSpecWords_eq_foldl (bs : List Nat) :
    ∀ h : Nat, fnv1aSpecWords h bs = bs.foldl fnvStep h := by
  induction bs with
  | nil => intro h; rfl
  | cons b bs ih =>
    intro h
    simp only [fnv1aSpecWords, List.foldl_cons, fnvStep]
    exact ih _

/-- C1: for every path string, the derived port is `8765 + (h mod 1000)` where
`h` is the 64-bit FNV-1a hash of the UTF-8 bytes of the path; the result is
deterministic (equal inputs give equal ports) and lies in [8765, 9764]. -/
theorem getPortForDir_spec (cwd cwd2 : String) (hdet : cwd2 = cwd) :
    getPortForDir cwd = 8765 + fnv1aSpecWords fnvOffsetBasis (pathBytes cwd) % 1000 ∧
    8765 ≤ getPortForDir cwd ∧
    getPortForDir cwd ≤ 9764 ∧
    getPortForDir cwd2 = getPortForDir cwd := by
  refine ⟨?_, ?_, ?_, by rw [hdet]⟩
  · rw [fnv1aSpecWords_eq_foldl]; rfl
  · exact Nat.le_add_right 8765 _
  · have h : fnv1a (pathBytes cwd) % 1000 < 1000 := Nat.mod_lt _ (by norm_num)
    unfold getPortForDir
    omega

/-- Witness for C1 at the concrete path `"/a"`. -/
theorem getPortForDir_spec_witness :
    getPortForDir "/a" = 8765 + fnv1aSpecWords fnvOffsetBasis (pathBytes "/a") % 1000 ∧
    8765 ≤ getPortForDir "/a" ∧
    getPortForDir "/a" ≤ 9764 ∧
    getPortForDir "/a" = getPortForDir "/a" :=
  getPortForDir_spec "/a" "/a" rfl

/-! ## Command forwarder: argument shaping (plugin.ts lines 92–100, 122–126,
145–146, 171–179)

Each `execute` builds its token list with a sequence of conditional
`cmd.push(...)` calls.  JavaScript truthiness decides most conditions:
`if (args.path)` skips `undefined` and the empty string, `if (args.n)` skips
`undefined` and `0`, `if (args.keyword)` skips `undefined` and `false`.  The
two numeric filters of `sema_query` instead test `!== undefined` explicitly.
Each kind of condition gets its own segment builder below. -/

/-- Segment guarded by string truthiness: `if (args.x) cmd.push(...)` where
`x` is an optional string — pushed only when present and non-empty. -/
def strSeg (o : Option String) (mk : String → List String) : List String :=
  match o with
  | some s => if s = "" then [] else mk s
  | none => []

/-- Segment guarded by number truthiness: `if (args.x) cmd.push(...)` where
`x` is an optional number — pushed only when present and non-zero. -/
def numSegTruthy (o : Option Int) (mk : Int → List String) : List String :=
  match o with
  | some v => if v = 0 then [] else mk v
  | none => []

/-- Segment guarded by `!== undefined`: pushed whenever present, including
`0` (used for `min_complexity` / `max_complexity` of `sema_query`). -/
def numSegDefined (o : Option Int) (mk : Int → List String) : List String :=
  match o with
  | some v => mk v
  | none => []

/-- Segment guarded by boolean truthiness: `if (args.x) cmd.push(...)` where
`x` is an optional boolean — pushed only when present and `true`. -/
def boolSeg (o : Option Bool) (tokens : List String) : List String :=
  match o with
  | some b => if b then tokens else []
  | none => []

/-- Arguments of the `sema` (search) tool, plugin.ts lines 83–91. -/
structure SearchArgs where
  query : String
  path : Option String := none
  n : Option Int := none
  lang : Option String := none
  glob : Option String := none
  exclude : Option String := none
  keyword : Option Bool := none

/-- Token list built by the `sema` tool's `execute`, plugin.ts lines 93–100. -/
def buildSearchCmd (a : SearchArgs) : List String :=
  ["sema"]
    ++ boolSeg a.keyword ["-k"]
    ++ [a.query]
    ++ strSeg a.path (fun p => [p])
    ++ numSegTruthy a.n (fun v => ["-n", toString v])
    ++ strSeg a.lang (fun s => ["-l", s])
    ++ strSeg a.glob (fun s => ["-g", s])
    ++ strSeg a.exclude (fun s => ["--exclude", s])

/-- Arguments of the `sema_find` tool, plugin.ts lines 116–121. -/
structure FindArgs where
  symbol : String
  kind : Option String := none
  exported : Option Bool := none
  prefixFlag : Option Bool := none

/-- Token list built by `sema_find`'s `execute`, plugin.ts lines 123–126. -/
def buildFindCmd (a : FindArgs) : List String :=
  ["sema", "find", a.symbol]
    ++ strSeg a.kind (fun s => ["--kind", s])
    ++ boolSeg a.exported ["--exported"]
    ++ boolSeg a.prefixFlag ["--prefix"]

/-- Token list built by `sema_refs`'s `execute`, plugin.ts line 146. -/
def buildRefsCmd (symbol : String) : List String := ["sema", "refs", symbol]

/-- Arguments of the `sema_query` tool, plugin.ts lines 162–169. -/
structure QueryArgs where
  kind : Option String := none
  exported : Option Bool := none
  min_complexity : Option Int := none
  max_complexity : Option Int := none
  role : Option String := none
  parent : Option String := none
  language : Option String := none

/-- Token list built by `sema_query`'s `execute`, plugin.ts lines 172–179. -/
def buildQueryCmd (a : QueryArgs) : List String :=
  ["sema", "query"]
    ++ strSeg a.kind (fun s => ["--kind", s])
    ++ boolSeg a.exported ["--exported"]
    ++ numSegDefined a.min_complexity (fun v => ["--min-complexity", toString v])
    ++ numSegDefined a.max_complexity (fun v => ["--max-complexity", toString v])
    ++ strSeg a.role (fun s => ["--role", s])
    ++ strSeg a.parent (fun s => ["--parent", s])
    ++ strSeg a.language (fun s => ["--language", s])

/-! ## Command forwarder: spawn requests and result contract
(plugin.ts lines 102–110, 128–136, 148–156, 181–189) -/

/-- A `Bun.spawn` request: the token list and the optional `cwd` option.
The search tool's spawn passes no `cwd` (line 102); the other three pass
`cwd: realDir` (lines 128, 148, 181). -/
structure SpawnReq where
  cmd : List String
  cwd : Option String

/-- The spawn requests issued by one call of the `sema` tool (line 102). -/
def searchSpawns (a : SearchArgs) : List SpawnReq :=
  [⟨buildSearchCmd a, none⟩]

/-- The spawn requests issued by one call of `sema_find` (line 128). -/
def findSpawns (realDir : String) (a : FindArgs) : List SpawnReq :=
  [⟨buildFindCmd a, some realDir⟩]

/-- The spawn requests issued by one call of `sema_refs` (line 148). -/
def refsSpawns (realDir : String) (symbol : String) : List SpawnReq :=
  [⟨buildRefsCmd symbol, some realDir⟩]

/-- The spawn requests issued by one call of `sema_query` (line 181). -/
def querySpawns (realDir : String) (a : QueryArgs) : List SpawnReq :=
  [⟨buildQueryCmd a, some realDir⟩]

/-- The four tool operations. -/
inductive ToolOp
  | sema
  | semaFind
  | semaRefs
  | semaQuery
deriving DecidableEq

/-- The per-operation fallback phrase used when stderr is empty:
`"sema command failed"`, `"sema find command failed"`, etc. -/
def fallbackMessage : ToolOp → String
  | .sema => "sema command failed"
  | .semaFind => "sema find command failed"
  | .semaRefs => "sema refs command failed"
  | .semaQuery => "sema query command failed"

/-- Observed outcome of the spawned child process: its exit code and the
captured standard output and standard error texts. -/
structure ProcResult where
  exitCode : Int
  stdout : String
  stderr : String

/-- The string each `execute` returns, plugin.ts lines 106–110 (and the
identical blocks at 132–136, 152–156, 185–189):
`if (exitCode !== 0) return \x60Error: ${stderr || fallback}\x60; return output`.
JavaScript `stderr || fallback` yields `fallback` exactly when `stderr` is
the empty string. -/
def executeResult (op : ToolOp) (r : ProcResult) : String :=
  if r.exitCode ≠ 0 then
    "Error: " ++ (if r.stderr = "" then fallbackMessage op else r.stderr)
  else
    r.stdout

/-! ## Health check (plugin.ts lines 26–36, `checkServerHealth`) -/

/-- Outcome of the `fetch` call: either a response with an HTTP status, or
the `catch` branch (network error or abort on the 500 ms timeout). -/
inductive FetchOutcome
  | success (status : Nat)
  | failure
deriving DecidableEq

/-- `Response.ok`: status in the inclusive range 200–299. -/
def respOk (status : Nat) : Bool := 200 ≤ status && status ≤ 299

/-- The URL probed by the health check: `http://127.0.0.1:<port>/health`. -/
def healthUrl (port : Nat) : String :=
  "http://127.0.0.1:" ++ toString port ++ "/health"

/-- `checkServerHealth`, parametrised by a network oracle mapping a URL to
the fetch outcome: returns `res.ok` on a response and `false` on any thrown
error (the `catch` branch); it never raises. -/
def checkServerHealth (fetchAt : String → FetchOutcome) (port : Nat) : Bool :=
  match fetchAt (healthUrl port) with
  | .success st => respOk st
  | .failure => false

/-! ## Server supervisor (plugin.ts lines 57–76)

The activation body is modelled as the trace of observable actions it
performs, parametrised by oracles: `initialHealthy` is the result of the
first `checkServerHealth` call (line 57), `semaFound` whether `which("sema")`
resolves (line 59), and `health i` the result of the health check made by the
`i`-th iteration of the polling loop (line 71). -/

/-- An observable action of the activation body. -/
inductive Act
  | healthCheck (healthy : Bool)
  | whichSema (found : Bool)
  | spawnServe (cwd : String)
  | sleep (ms : Nat)
deriving DecidableEq

/-- The polling loop, plugin.ts lines 69–74: up to `fuel` iterations, each
sleeping 100 ms then checking health, breaking on the first success. -/
def pollEvents (health : Nat → Bool) : Nat → Nat → List Act
  | 0, _ => []
  | fuel + 1, i =>
    Act.sleep 100 :: Act.healthCheck (health i) ::
      (if health i then [] else pollEvents health fuel (i + 1))

/-- The supervision part of the activation body, plugin.ts lines 57–76:
check health; if unhealthy, look up the binary; if found, spawn
`sema serve` detached in `realDir` and poll up to 30 times. -/
def activationEvents (initialHealthy : Bool) (semaFound : Bool)
    (health : Nat → Bool) (realDir : String) : List Act :=
  Act.healthCheck initialHealthy ::
    (if initialHealthy then []
     else
       Act.whichSema semaFound ::
         (if semaFound then Act.spawnServe realDir :: pollEvents health 30 0
          else []))

/-! ## Shape lemmas for the conditional segments -/

theorem strSeg_shape (o : Option String) (mk : String → List String) :
    strSeg o mk = [] ∨ ∃ s, o = some s ∧ strSeg o mk = mk s := by
  match o with
  | none => exact Or.inl rfl
  | some s =>
    by_cases h : s = ""
    · exact Or.inl (by simp [strSeg, h])
    · exact Or.inr ⟨s, rfl, by simp [strSeg, h]⟩

theorem numSegTruthy_shape (o : Option Int) (mk : Int → List String) :
    numSegTruthy o mk = [] ∨ ∃ v, o = some v ∧ numSegTruthy o mk = mk v := by
  match o with
  | none => exact Or.inl rfl
  | some v =>
    by_cases h : v = 0
    · exact Or.inl (by simp [numSegTruthy, h])
    · exact Or.inr ⟨v, rfl, by simp [numSegTruthy, h]⟩

theorem numSegDefined_shape (o : Option Int) (mk : Int → List String) :
    numSegDefined o mk = [] ∨ ∃ v, o = some v ∧ numSegDefined o mk = mk v := by
  match o with
  | none => exact Or.inl rfl
  | some v => exact Or.inr ⟨v, rfl, rfl⟩

theorem boolSeg_shape (o : Option Bool) (tokens : List String) :
    boolSeg o tokens = if o = some true then tokens else [] := by
  match o with
  | none => simp [boolSeg]
  | some b => cases b <;> simp [boolSeg]

/-! ## Claim theorems for the command forwarder -/

/-- C2 counterexample: with exit code 1 and empty standard error, the search
tool returns `"Error: sema command failed"`, not the bare fallback phrase
`"sema command failed"` that the claim states. -/
theorem executeResult_fallback_counterexample :
    executeResult ToolOp.sema ⟨1, "", ""⟩ = "Error: sema command failed" ∧
    executeResult ToolOp.sema ⟨1, "", ""⟩ ≠ "sema command failed" := by
  constructor <;> decide

/-- C2 (amended): on exit code 0 the tool returns the captured standard
output verbatim; on non-zero exit with non-empty standard error it returns
exactly `"Error: "` ++ stderr; on non-zero exit with empty standard error it
returns `"Error: "` ++ the operation-specific fallback phrase.  Exactly one
branch applies, and the function is total (no exception escapes). -/
theorem executeResult_contract (op : ToolOp) (r : ProcResult) :
    (r.exitCode = 0 → executeResult op r = r.stdout) ∧
    (r.exitCode ≠ 0 → r.stderr ≠ "" → executeResult op r = "Error: " ++ r.stderr) ∧
    (r.exitCode ≠ 0 → r.stderr = "" → executeResult op r = "Error: " ++ fallbackMessage op) := by
  refine ⟨fun h0 => ?_, fun hne hs => ?_, fun hne hs => ?_⟩
  · simp [executeResult, h0]
  · simp [executeResult, hne, hs]
  · simp [executeResult, hne, hs]

/-- Witness for C2's amended contract: exit code 1 with stderr `"boom"`
yields exactly `"Error: boom"`. -/
theorem executeResult_contract_witness :
    executeResult ToolOp.sema ⟨1, "", "boom"⟩ = "Error: " ++ "boom" :=
  (executeResult_contract ToolOp.sema ⟨1, "", "boom"⟩).2.1 (by decide) (by decide)

/-- C3: the search token sequence is exactly the binary name, then `"-k"`
iff keyword mode was requested, then the query, then the optional path
token, then the `-n`/`-l`/`-g`/`--exclude` pairs in that order, each segment
present only if the corresponding argument was supplied; in particular the
two representative argument sets of the claim produce the stated lists. -/
theorem buildSearchCmd_shape (a : SearchArgs) :
    (∃ pathPart nPart langPart globPart exPart,
      buildSearchCmd a =
        ["sema"] ++ (if a.keyword = some true then ["-k"] else []) ++ [a.query]
          ++ pathPart ++ nPart ++ langPart ++ globPart ++ exPart ∧
      (pathPart = [] ∨ ∃ p, a.path = some p ∧ pathPart = [p]) ∧
      (nPart = [] ∨ ∃ v, a.n = some v ∧ nPart = ["-n", toString v]) ∧
      (langPart = [] ∨ ∃ s, a.lang = some s ∧ langPart = ["-l", s]) ∧
      (globPart = [] ∨ ∃ s, a.glob = some s ∧ globPart = ["-g", s]) ∧
      (exPart = [] ∨ ∃ s, a.exclude = some s ∧ exPart = ["--exclude", s])) ∧
    buildSearchCmd { query := "foo" } = ["sema", "foo"] ∧
    buildSearchCmd { query := "foo", n := some 10, keyword := some true } =
      ["sema", "-k", "foo", "-n", "10"] := by
  refine ⟨⟨strSeg a.path (fun p => [p]), numSegTruthy a.n (fun v => ["-n", toString v]),
    strSeg a.lang (fun s => ["-l", s]), strSeg a.glob (fun s => ["-g", s]),
    strSeg a.exclude (fun s => ["--exclude", s]), ?_,
    strSeg_shape _ _, numSegTruthy_shape _ _, strSeg_shape _ _, strSeg_shape _ _,
    strSeg_shape _ _⟩, by decide, by decide⟩
  unfold buildSearchCmd
  rw [boolSeg_shape]

/-- C6: the structural-query token sequence is exactly
`["sema", "query"]` followed by the `--kind`, `--exported`,
`--min-complexity`, `--max-complexity`, `--role`, `--parent`, `--language`
segments in that order, each present only when the corresponding argument
was supplied (`--exported` iff requested), numeric values stringified in
base 10 by `toString`. -/
theorem buildQueryCmd_shape (a : QueryArgs) :
    ∃ kindPart minPart maxPart rolePart parentPart langPart,
      buildQueryCmd a =
        ["sema", "query"] ++ kindPart
          ++ (if a.exported = some true then ["--exported"] else [])
          ++ minPart ++ maxPart ++ rolePart ++ parentPart ++ langPart ∧
      (kindPart = [] ∨ ∃ s, a.kind = some s ∧ kindPart = ["--kind", s]) ∧
      (minPart = [] ∨ ∃ v, a.min_complexity = some v ∧
        minPart = ["--min-complexity", toString v]) ∧
      (maxPart = [] ∨ ∃ v, a.max_complexity = some v ∧
        maxPart = ["--max-complexity", toString v]) ∧
      (rolePart = [] ∨ ∃ s, a.role = some s ∧ rolePart = ["--role", s]) ∧
      (parentPart = [] ∨ ∃ s, a.parent = some s ∧ parentPart = ["--parent", s]) ∧
      (langPart = [] ∨ ∃ s, a.language = some s ∧ langPart = ["--language", s]) := by
  refine ⟨strSeg a.kind (fun s => ["--kind", s]),
    numSegDefined a.min_complexity (fun v => ["--min-complexity", toString v]),
    numSegDefined a.max_complexity (fun v => ["--max-complexity", toString v]),
    strSeg a.role (fun s => ["--role", s]),
    strSeg a.parent (fun s => ["--parent", s]),
    strSeg a.language (fun s => ["--language", s]), ?_,
    strSeg_shape _ _, numSegDefined_shape _ _, numSegDefined_shape _ _,
    strSeg_shape _ _, strSeg_shape _ _, strSeg_shape _ _⟩
  unfold buildQueryCmd
  rw [boolSeg_shape]

/-- C7: the find-symbol token sequence is exactly
`["sema", "find", symbol]` followed by the optional `--kind` pair, the
`--exported` flag iff requested and the `--prefix` flag iff requested, in
that order; the find-references sequence is exactly `["sema", "refs",
symbol]` with no optional arguments. -/
theorem buildFindCmd_buildRefsCmd_shape :
    (∀ a : FindArgs, ∃ kindPart,
      buildFindCmd a =
        ["sema", "find", a.symbol] ++ kindPart
          ++ (if a.exported = some true then ["--exported"] else [])
          ++ (if a.prefixFlag = some true then ["--prefix"] else []) ∧
      (kindPart = [] ∨ ∃ s, a.kind = some s ∧ kindPart = ["--kind", s])) ∧
    (∀ s : String, buildRefsCmd s = ["sema", "refs", s]) := by
  refine ⟨fun a => ⟨strSeg a.kind (fun s => ["--kind", s]), ?_, strSeg_shape _ _⟩,
    fun s => rfl⟩
  unfold buildFindCmd
  rw [boolSeg_shape, boolSeg_shape]

/-- C9: every tool call issues exactly one spawn request; find-symbol,
find-references and structural-query set the working directory to the
resolved project directory, while search sets none. -/
theorem spawn_once_and_cwd (realDir : String) (sa : SearchArgs) (fa : FindArgs)
    (sym : String) (qa : QueryArgs) :
    (searchSpawns sa).length = 1 ∧
    (searchSpawns sa).map SpawnReq.cwd = [none] ∧
    (findSpawns realDir fa).length = 1 ∧
    (findSpawns realDir fa).map SpawnReq.cwd = [some realDir] ∧
    (refsSpawns realDir sym).length = 1 ∧
    (refsSpawns realDir sym).map SpawnReq.cwd = [some realDir] ∧
    (querySpawns realDir qa).length = 1 ∧
    (querySpawns realDir qa).map SpawnReq.cwd = [some realDir] :=
  ⟨rfl, rfl, rfl, rfl, rfl, rfl, rfl, rfl⟩

/-- C10: optional-argument presence is decided inconsistently: the search
tool's truthiness tests drop `n = 0` and empty strings, while
structural-query's `!== undefined` tests keep `min_complexity = 0` and
`max_complexity = 0` but its truthiness-tested string arguments drop empty
strings. -/
theorem optionalArg_truthiness_inconsistency :
    buildSearchCmd { query := "q", n := some 0 } = ["sema", "q"] ∧
    buildSearchCmd { query := "q", path := some "" } = ["sema", "q"] ∧
    buildSearchCmd { query := "q", lang := some "" } = ["sema", "q"] ∧
    buildSearchCmd { query := "q", glob := some "" } = ["sema", "q"] ∧
    buildSearchCmd { query := "q", exclude := some "" } = ["sema", "q"] ∧
    buildQueryCmd { min_complexity := some 0 } =
      ["sema", "query", "--min-complexity", "0"] ∧
    buildQueryCmd { max_complexity := some 0 } =
      ["sema", "query", "--max-complexity", "0"] ∧
    buildQueryCmd { kind := some "" } = ["sema", "query"] ∧
    buildQueryCmd { role := some "" } = ["sema", "query"] ∧
    buildQueryCmd { parent := some "" } = ["sema", "query"] ∧
    buildQueryCmd { language := some "" } = ["sema", "query"] := by
  refine ⟨?_, ?_, ?_, ?_, ?_, ?_, ?_, ?_, ?_, ?_, ?_⟩ <;> decide

/-! ## Claim theorems for the health check and the supervisor -/

/-- C8: the health check returns `true` iff the GET on
`http://127.0.0.1:<port>/health` produced a response with a 2xx status; any
non-2xx response or thrown error (network failure, abort on timeout) yields
`false`, and the function is total (never raises to its caller). -/
theorem checkServerHealth_spec (fetchAt : String → FetchOutcome) (port : Nat) :
    checkServerHealth fetchAt port = true ↔
      ∃ st, fetchAt (healthUrl port) = FetchOutcome.success st ∧
        200 ≤ st ∧ st ≤ 299 := by
  constructor
  · intro hok
    unfold checkServerHealth at hok
    cases hfa : fetchAt (healthUrl port) with
    | success st =>
      rw [hfa] at hok
      refine ⟨st, rfl, ?_⟩
      simpa [respOk] using hok
    | failure =>
      rw [hfa] at hok
      exact absurd hok (by simp)
  · rintro ⟨st, hfa, h1, h2⟩
    unfold checkServerHealth
    rw [hfa]
    simp [respOk, h1, h2]

/-- Witness for C8: a 204 response on the health URL makes the check true. -/
theorem checkServerHealth_spec_witness :
    checkServerHealth (fun _ => FetchOutcome.success 204) 8765 = true :=
  (checkServerHealth_spec (fun _ => FetchOutcome.success 204) 8765).mpr
    ⟨204, rfl, by decide, by decide⟩

theorem pollEvents_never (health : Nat → Bool) (hnever : ∀ i, health i = false) :
    ∀ fuel i, pollEvents health fuel i =
      (List.replicate fuel [Act.sleep 100, Act.healthCheck false]).flatten := by
  intro fuel
  induction fuel with
  | zero => intro i; rfl
  | succ f ih =>
    intro i
    rw [pollEvents, hnever i]
    rw [ih (i + 1)]
    simp [List.replicate_succ]

theorem pollEvents_firstSuccess (health : Nat → Bool) :
    ∀ fuel i j, j < fuel → health (i + j) = true →
      (∀ k, k < j → health (i + k) = false) →
      pollEvents health fuel i =
        (List.replicate j [Act.sleep 100, Act.healthCheck false]).flatten
          ++ [Act.sleep 100, Act.healthCheck true] := by
  intro fuel
  induction fuel with
  | zero => intro i j hj _ _; exact absurd hj (Nat.not_lt_zero j)
  | succ f ih =>
    intro i j hj hsucc hbefore
    cases hj0 : health i with
    | true =>
      have hz : j = 0 := by
        by_contra hne
        have h0 := hbefore 0 (Nat.pos_of_ne_zero hne)
        rw [Nat.add_zero] at h0
        rw [h0] at hj0
        exact Bool.noConfusion hj0
      subst hz
      rw [pollEvents, hj0]
      simp
    | false =>
      have hjne : j ≠ 0 := by
        intro hz
        subst hz
        rw [Nat.add_zero] at hsucc
        rw [hsucc] at hj0
        exact Bool.noConfusion hj0
      obtain ⟨j', rfl⟩ : ∃ j', j = j' + 1 := ⟨j - 1, by omega⟩
      rw [pollEvents, hj0]
      have hrec := ih (i + 1) j' (by omega)
        (by rw [show i + 1 + j' = i + (j' + 1) by omega]; exact hsucc)
        (fun k hk => by
          rw [show i + 1 + k = i + (k + 1) by omega]
          exact hbefore (k + 1) (by omega))
      rw [hrec]
      simp [List.replicate_succ]

/-- C4: if the initial health check fails, the binary resolves, and health
never becomes true, activation performs exactly 30 poll attempts — each a
100 ms sleep followed by a health check — and returns normally (the trace is
a total value); if instead attempt `j` (the first success) succeeds, the
polling trace stops at that attempt. -/
theorem activation_polling_spec (health : Nat → Bool) (realDir : String) :
    ((∀ i, health i = false) →
      activationEvents false true health realDir =
        Act.healthCheck false :: Act.whichSema true :: Act.spawnServe realDir ::
          (List.replicate 30 [Act.sleep 100, Act.healthCheck false]).flatten ∧
      (pollEvents health 30 0).count (Act.sleep 100) = 30 ∧
      (pollEvents health 30 0).count (Act.healthCheck false) = 30) ∧
    (∀ j, j < 30 → health j = true → (∀ k, k < j → health k = false) →
      pollEvents health 30 0 =
        (List.replicate j [Act.sleep 100, Act.healthCheck false]).flatten
          ++ [Act.sleep 100, Act.healthCheck true]) := by
  constructor
  · intro hnever
    have hp := pollEvents_never health hnever 30 0
    refine ⟨?_, ?_, ?_⟩
    · unfold activationEvents
      rw [hp]
      simp
    · rw [hp]; decide
    · rw [hp]; decide
  · intro j hj hsucc hbefore
    exact pollEvents_firstSuccess health 30 0 j hj
      (by rw [Nat.zero_add]; exact hsucc)
      (fun k hk => by rw [Nat.zero_add]; exact hbefore k hk)

/-- Witness for C4: with a never-healthy oracle the trace is the full
30-block polling trace; with an immediately-healthy oracle polling stops at
the first attempt. -/
theorem activation_polling_spec_witness :
    activationEvents false true (fun _ => false) "/d" =
      Act.healthCheck false :: Act.whichSema true :: Act.spawnServe "/d" ::
        (List.replicate 30 [Act.sleep 100, Act.healthCheck false]).flatten ∧
    pollEvents (fun _ => true) 30 0 =
      (List.replicate 0 [Act.sleep 100, Act.healthCheck false]).flatten
        ++ [Act.sleep 100, Act.healthCheck true] := by
  constructor
  · exact ((activation_polling_spec (fun _ => false) "/d").1 (fun _ => rfl)).1
  · exact (activation_polling_spec (fun _ => true) "/d").2 0 (by decide) rfl
      (fun k hk => absurd hk (Nat.not_lt_zero k))

/-- C5: if the initial health check reports healthy, activation performs no
further action — no `which` lookup, no spawn, no polling; and a spawn of
`sema serve` occurs in an activation trace only if the initial check was
unhealthy and the binary was resolvable. -/
theorem supervisor_idempotent (semaFound : Bool) (health : Nat → Bool)
    (realDir : String) :
    activationEvents true semaFound health realDir = [Act.healthCheck true] ∧
    (∀ initialHealthy found d,
      Act.spawnServe d ∈ activationEvents initialHealthy found health realDir →
      initialHealthy = false ∧ found = true) := by
  refine ⟨rfl, ?_⟩
  intro ih fd d hmem
  cases ih with
  | true => simp [activationEvents] at hmem
  | false =>
    cases fd with
    | true => exact ⟨rfl, rfl⟩
    | false => simp [activationEvents] at hmem

/-- Witness for C5: the healthy-activation trace at concrete oracles, and
the spawn-implies-unhealthy-and-found implication discharged at a concrete
trace that does contain the spawn. -/
theorem supervisor_idempotent_witness :
    activationEvents true false (fun _ => false) "/d" = [Act.healthCheck true] ∧
    (false = false ∧ true = true) :=
  ⟨(supervisor_idempotent false (fun _ => false) "/d").1,
   (supervisor_idempotent false (fun _ => false) "/d").2 false true "/d"
     (by decide)⟩

end Sema
